import Mathlib

/-!
Verification of the AbMelt inference pipeline
(`abmelt_infer_pipeline/src/compute_descriptors.py`,
`abmelt_infer_pipeline/src/model_inference.py`,
`abmelt_infer_pipeline/src/md_simulation.py`).

Numeric conventions of the embedding:
* Python floats are modelled by `ℚ` (the claims under scrutiny are about
  control flow, slicing indices, naming and aggregation structure, not about
  rounding).
* `np.mean` is modelled by `npMean`.
* `np.std` is the square root of the population variance.  We record the
  population variance `npVar` (the square of `np.std`) so that all values
  stay in `ℚ`; since the real square root is injective on nonnegatives, two
  `np.std` values are equal iff the corresponding `npVar` values are equal,
  and a `np.std` value is `0` iff the corresponding `npVar` value is `0`.
  Every statement below about a "std" feature is therefore stated through
  `npVar`.
* Python's substring test `pat in s` is modelled by `strContains`, and
  `str.replace` by `strReplace` (replace every non-overlapping occurrence,
  scanning left to right).
-/

namespace AbMelt

/-- Python `pat in s` substring test. -/
def strContains (s pat : String) : Bool := decide (pat.data <:+: s.data)

/-- Fuelled worker for `strReplace`; the fuel is an upper bound on the number
of characters still to be scanned, so `s.length` fuel always suffices. -/
def strReplaceAux (pat rep : List Char) : ℕ → List Char → List Char
  | 0, s => s
  | _ + 1, [] => []
  | fuel + 1, c :: rest =>
    if pat ≠ [] ∧ pat.isPrefixOf (c :: rest) then
      rep ++ strReplaceAux pat rep fuel ((c :: rest).drop pat.length)
    else
      c :: strReplaceAux pat rep fuel rest

/-- Python `s.replace(pat, rep)` (for the non-empty patterns used by the
pipeline). -/
def strReplace (s pat rep : String) : String :=
  ⟨strReplaceAux pat.data rep.data s.data.length s.data⟩

/-- `np.mean` over a 1-D array. -/
def npMean (xs : List ℚ) : ℚ := xs.sum / xs.length

/-- Square of `np.std` over a 1-D array (population variance; see the header
comment for why the variance rather than its square root is recorded). -/
def npVar (xs : List ℚ) : ℚ :=
  ((xs.map (fun x => (x - npMean xs) ^ 2)).sum) / xs.length

/-- `compute_descriptors.py` line 583-585: `eq_start_idx = int(eq_time_ps / 10)`
with `eq_time_ps = eq_time * 1000` (10 ps per frame). -/
def eqStartIdx (eqTime : ℕ) : ℕ := eqTime * 1000 / 10

/-- Result of `_parse_xvg_file`: either a 1-D numpy array or a 2-D array with
a fixed number of data columns. -/
inductive XvgData where
  | one (xs : List ℚ)
  | many (cols : ℕ) (rows : List (List ℚ))
deriving DecidableEq

/-- `len(data)` for a parsed array (number of rows for 2-D data). -/
def dataLen : XvgData → ℕ
  | .one xs => xs.length
  | .many _ rows => rows.length

/-- `data[k:]` for a parsed array. -/
def dataDrop (k : ℕ) : XvgData → XvgData
  | .one xs => .one (xs.drop k)
  | .many c rows => .many c (rows.drop k)

/-- Column `j` of a 2-D array (`data[:, j]`). -/
def colOf (rows : List (List ℚ)) (j : ℕ) : List ℚ :=
  rows.map (fun r => r.getD j 0)

/-- The five per-line accumulators `t, x, y, z, r` of `_parse_xvg_file`. -/
structure XvgCols where
  mk :: (t : List ℚ) (x : List ℚ) (y : List ℚ) (z : List ℚ) (r : List ℚ)

/-- The accumulation loop of `_parse_xvg_file` (lines 936-962): each data line
is dispatched on its column count; lines with 0, 1 or more than 5 columns are
skipped.  The input is the list of numeric data lines (comment lines starting
with `#`/`@` are already skipped by the source loop before this dispatch). -/
def parseLists : List (List ℚ) → XvgCols
  | [] => ⟨[], [], [], [], []⟩
  | cols :: rest =>
    let p := parseLists rest
    match cols with
    | [a, b] => ⟨a :: p.t, b :: p.x, p.y, p.z, p.r⟩
    | [a, b, c] => ⟨a :: p.t, b :: p.x, c :: p.y, p.z, p.r⟩
    | [a, b, c, d] => ⟨a :: p.t, b :: p.x, c :: p.y, d :: p.z, p.r⟩
    | [a, b, c, d, e] => ⟨a :: p.t, c :: p.x, d :: p.y, e :: p.z, b :: p.r⟩
    | _ => p

/-- Rows of `np.column_stack([a, b])`. -/
def rows2 (a b : List ℚ) : List (List ℚ) :=
  List.zipWith (fun u v => [u, v]) a b

/-- Rows of `np.column_stack([a, b, c])`. -/
def rows3 (a b c : List ℚ) : List (List ℚ) :=
  List.zipWith (fun r v => r ++ [v]) (rows2 a b) c

/-- Rows of `np.column_stack([a, b, c, d])`. -/
def rows4 (a b c d : List ℚ) : List (List ℚ) :=
  List.zipWith (fun r v => r ++ [v]) (rows3 a b c) d

/-- The return dispatch of `_parse_xvg_file` (lines 964-974): prefer the
5-column accumulators, then 4, then 3, then 2; an empty file parses to `none`.
`np.column_stack` raises on length-mismatched inputs and the surrounding
`try/except` then returns `None`; the length guards model that. -/
def parseFinish (p : XvgCols) : Option XvgData :=
  if p.r ≠ [] then
    if p.r.length = p.x.length ∧ p.x.length = p.y.length ∧ p.y.length = p.z.length then
      some (.many 4 (rows4 p.r p.x p.y p.z))
    else none
  else if p.z ≠ [] then
    if p.x.length = p.y.length ∧ p.y.length = p.z.length then
      some (.many 3 (rows3 p.x p.y p.z))
    else none
  else if p.y ≠ [] then
    if p.x.length = p.y.length then some (.many 2 (rows2 p.x p.y)) else none
  else if p.x ≠ [] then some (.one p.x)
  else none

/-- `_parse_xvg_file` on the numeric data lines of a `.xvg` file. -/
def parseXvg (lines : List (List ℚ)) : Option XvgData :=
  parseFinish (parseLists lines)

/-- The six single hypervariable loop regions (`compute_descriptors.py`
lines 650-657). -/
def cdrSingles : List String :=
  ["cdrl1", "cdrl2", "cdrl3", "cdrh1", "cdrh2", "cdrh3"]

/-- Radial shell index used for electrostatic-potential features
(lines 650-665): single loops use index 2, the union `cdrs` uses index 5,
anything else defaults to 2. -/
def potentialRadiusIdx (region : String) : ℕ :=
  if region ∈ cdrSingles then 2
  else if region = "cdrs" then 5
  else 2

/-- The 1-D branch of `_aggregate_descriptors_to_dataframe` (lines 592-638):
feature naming by substring dispatch on the metric name, each emitted metric
reduced to `np.mean` / `np.std` of the (already equilibrated) series.  The
std slot carries `npVar` (see the header comment). -/
def agg1 (name temp : String) (xs : List ℚ) : List (String × ℚ) :=
  let mu := npMean xs
  let sd := npVar xs
  if strContains name "bonds" then
    if strContains name "lh" then
      [("bonds_lh_mu_" ++ temp, mu), ("bonds_lh_std_" ++ temp, sd)]
    else
      [("bonds_hbonds_mu_" ++ temp, mu), ("bonds_hbonds_std_" ++ temp, sd)]
  else if strContains name "sasa" then
    let region := strReplace (strReplace name "sasa_" "") ("_" ++ temp) ""
    [("sasa_" ++ region ++ "_mu_" ++ temp, mu),
     ("sasa_" ++ region ++ "_std_" ++ temp, sd)]
  else if strContains name "rmsd" then
    [("rmsd_mu_" ++ temp, mu), ("rmsd_std_" ++ temp, sd)]
  else if strContains name "rmsf" then
    let region := strReplace (strReplace name "rmsf_" "") ("_" ++ temp) ""
    [("rmsf_" ++ region ++ "_mu_" ++ temp, mu),
     ("rmsf_" ++ region ++ "_std_" ++ temp, sd)]
  else if strContains name "gyr" then
    let region := strReplace (strReplace name "gyr_" "") ("_" ++ temp) ""
    [("gyr_" ++ region ++ "_Rg_mu_" ++ temp, mu),
     ("gyr_" ++ region ++ "_Rg_std_" ++ temp, sd)]
  else if strContains name "potential" then
    []
  else if strContains name "dipole" then
    [("dipole_mu_" ++ temp, mu), ("dipole_std_" ++ temp, sd)]
  else []

/-- The 2-D branch of `_aggregate_descriptors_to_dataframe` (lines 640-750).
The branch order is exactly the source's `if/elif` chain; in particular the
`shape[1] >= 4` test precedes the `shape[1] == 4` dipole branch, which is
therefore unreachable. -/
def agg2 (name temp : String) (c : ℕ) (rows : List (List ℚ)) : List (String × ℚ) :=
  if strContains name "potential" then
    let region := strReplace (strReplace name "potential_" "") ("_" ++ temp) ""
    let radiusIdx := potentialRadiusIdx region
    if radiusIdx < rows.length then
      [("potential_" ++ region ++ "_mu_" ++ temp, (rows.getD radiusIdx []).getD 1 0),
       ("potential_" ++ region ++ "_std_" ++ temp, 0)]
    else []
  else if 4 ≤ c then
    if strContains name "gyr" then
      let region := strReplace (strReplace name "gyr_" "") ("_" ++ temp) ""
      let rv := colOf rows 0
      let xv := colOf rows 1
      let yv := colOf rows 2
      let zv := colOf rows 3
      [("gyr_" ++ region ++ "_Rg_mu_" ++ temp, npMean rv),
       ("gyr_" ++ region ++ "_Rg_std_" ++ temp, npVar rv),
       ("gyr_" ++ region ++ "_Rx_mu_" ++ temp, npMean xv),
       ("gyr_" ++ region ++ "_Rx_std_" ++ temp, npVar xv),
       ("gyr_" ++ region ++ "_Ry_mu_" ++ temp, npMean yv),
       ("gyr_" ++ region ++ "_Ry_std_" ++ temp, npVar yv),
       ("gyr_" ++ region ++ "_Rz_mu_" ++ temp, npMean zv),
       ("gyr_" ++ region ++ "_Rz_std_" ++ temp, npVar zv)]
    else []
  else if c = 2 then
    if strContains name "bonds" then
      let hb := colOf rows 0
      let ct := colOf rows 1
      [("bonds_hbonds_mu_" ++ temp, npMean hb),
       ("bonds_hbonds_std_" ++ temp, npVar hb),
       ("bonds_contacts_mu_" ++ temp, npMean ct),
       ("bonds_contacts_std_" ++ temp, npVar ct)]
    else []
  else if c = 3 then
    if strContains name "dipole" then
      let dz := colOf rows 2
      [("dipole_mu_" ++ temp, npMean dz), ("dipole_std_" ++ temp, npVar dz)]
    else []
  else if c = 4 then
    if strContains name "dipole" then
      let dz := colOf rows 2
      [("dipole_mu_" ++ temp, npMean dz), ("dipole_std_" ++ temp, npVar dz)]
    else []
  else []

/-- Per-file body of the aggregation loop of
`_aggregate_descriptors_to_dataframe` (lines 554-754): temperature lookup by
substring, parse, equilibration slicing (skipped for RMSF per-residue data;
the whole metric is skipped when the series is not longer than the
equilibration index), then shape dispatch. -/
def aggFile (eqTime : ℕ) (temps : List String) (name : String)
    (data : Option XvgData) : List (String × ℚ) :=
  match temps.find? (fun t => strContains name t) with
  | none => []
  | some temp =>
    match data with
    | none => []
    | some d =>
      if dataLen d = 0 then []
      else
        let eqd : Option XvgData :=
          if strContains name "rmsf" then some d
          else if dataLen d ≤ eqStartIdx eqTime then none
          else some (dataDrop (eqStartIdx eqTime) d)
        match eqd with
        | none => []
        | some d2 =>
          if dataLen d2 = 0 then []
          else
            match d2 with
            | .one xs => agg1 name temp xs
            | .many c rows => agg2 name temp c rows

/-- Aggregation over a set of raw metric files (the `for xvg_file in
xvg_files` loop): each file contributes its feature assignments to one map;
later assignments to an existing key overwrite (Python dict semantics), so
the emitted names per file are what matters for collision questions. -/
def aggFiles (eqTime : ℕ) (temps : List String)
    (files : List (String × List (List ℚ))) : List (String × ℚ) :=
  (files.map (fun f => aggFile eqTime temps f.1 (parseXvg f.2))).flatten

/-- Feature names assigned by one raw metric file. -/
def assignedNames (eqTime : ℕ) (temps : List String)
    (file : String × List (List ℚ)) : List String :=
  (aggFile eqTime temps file.1 (parseXvg file.2)).map Prod.fst

/-! ### Order-parameter lambda features

`_compute_lambda_features` (lines 461-520) and the lambda block of
`_aggregate_descriptors_to_dataframe` (lines 767-783).  The per-residue S²
maps are assoc lists `temperature → (residue → S²)`; the block length only
enters feature names through its Python `str()` form, carried here as a
`String` label.  `get_lambda` lives in the external `order_param` module (not
under `src/`), so it is a parameter of the embedding; a `none` result models
the `try/except` path that stores `(None, None)` on an exception. -/

/-- Per-residue dictionary (residue id → value). -/
def ResDict : Type := List (ℕ × ℚ)

/-- S² maps per temperature for one block length. -/
def S2Map : Type := List (ℤ × ResDict)

/-- Lines 485-488: temperatures that actually hold S² data. -/
def availableTemps (tempInts : List ℤ) (m : S2Map) : List ℤ :=
  tempInts.filter (fun t =>
    match m.lookup t with
    | some d => decide (0 < d.length)
    | none => false)

/-- Lines 482-518 for one block length: fewer than 2 temperatures with data
stores `(None, None)` (modelled as `none`); otherwise the external
`get_lambda` runs, its own exception path also yielding `(None, None)`. -/
def computeLambdaBlock (getLam : S2Map → List ℤ → Option (ResDict × ResDict))
    (tempInts : List ℤ) (m : S2Map) : Option (ResDict × ResDict) :=
  if (availableTemps tempInts m).length < 2 then none
  else getLam m (availableTemps tempInts m)

/-- Lines 768-783 for one block: `if lambda_dict and r_dict` (Python
truthiness: `None` and the empty dict are both falsy) guards the emission of
the three lambda feature names for that block length. -/
def lambdaBlockFeatures (eqTime : ℕ) (blockLabel : String)
    (res : Option (ResDict × ResDict)) : List (String × ℚ) :=
  match res with
  | none => []
  | some (lam, r) =>
    if lam.length = 0 ∨ r.length = 0 then []
    else
      [("all-temp_lamda_b=" ++ blockLabel ++ "_eq=" ++ toString eqTime,
        npMean (lam.map Prod.snd)),
       ("r-lamda_b=" ++ blockLabel ++ "_eq=" ++ toString eqTime,
        npMean (r.map Prod.snd)),
       ("all-temp_lamda_r_b=" ++ blockLabel ++ "_eq=" ++ toString eqTime,
        npMean (r.map Prod.snd))]

/-- The whole lambda-feature block of the aggregator: one contribution per
block length. -/
def lambdaFeatures (eqTime : ℕ)
    (blocks : List (String × Option (ResDict × ResDict))) : List (String × ℚ) :=
  (blocks.map (fun p => lambdaBlockFeatures eqTime p.1 p.2)).flatten

/-! ### Model inference dispatcher (`model_inference.py`) -/

/-- A feature vector / single-row descriptor table: feature name → value. -/
def FeatVec : Type := List (String × ℚ)

/-- The three registered models, in dispatch order (lines 42-46, 195). -/
def modelNames : List String := ["tagg", "tm", "tmon"]

/-- The per-model required feature lists (lines 50-67). -/
def model_features (m : String) : List String :=
  if m = "tagg" then
    ["rmsf_cdrs_mu_400", "gyr_cdrs_Rg_std_400", "all-temp_lamda_b=25_eq=20"]
  else if m = "tm" then
    ["gyr_cdrs_Rg_std_350", "bonds_contacts_std_350", "rmsf_cdrl1_std_350"]
  else if m = "tmon" then
    ["bonds_contacts_std_350", "all-temp-sasa_core_mean_k=20_eq=20",
     "all-temp-sasa_core_std_k=20_eq=20", "r-lamda_b=2.5_eq=20"]
  else []

/-- The structured exceptions `load_model` / `extract_features` / `predict`
can raise. -/
inductive PredErr where
  | unknownModel (name : String)
  | loadFailure (name : String) (msg : String)
  | missingFeatures (name : String) (missing : List String)
  | predictFailure (name : String) (msg : String)
deriving DecidableEq

/-- The predictor's environment: what `joblib.load` yields per model name —
either a scikit-learn model (an opaque function from the extracted feature
row to a prediction, itself allowed to raise) or a load-time exception. -/
structure ModelEnv where
  loadModel : String → Except String (List ℚ → Except String ℚ)

/-- `AbMeltPredictor.load_model` (lines 89-121): unknown names raise
`ValueError`; a `joblib.load` exception is re-raised. -/
def load_model (env : ModelEnv) (m : String) : Except PredErr (List ℚ → Except String ℚ) :=
  if modelNames.contains m then
    match env.loadModel m with
    | .ok f => .ok f
    | .error msg => .error (.loadFailure m msg)
  else .error (.unknownModel m)

/-- `AbMeltPredictor.extract_features` (lines 123-155): raises a structured
error naming the features missing for that model, otherwise selects the
required features in the model's declared order. -/
def extract_features (df : FeatVec) (m : String) : Except PredErr (List ℚ) :=
  let required := model_features m
  let avail := df.map Prod.fst
  let missing := required.filter (fun f => !(avail.contains f))
  if missing.isEmpty then
    .ok (required.map (fun f => (df.lookup f).getD 0))
  else .error (.missingFeatures m missing)

/-- `AbMeltPredictor.predict` (lines 157-180): load, extract, then run the
model; any exception propagates. -/
def predict (env : ModelEnv) (df : FeatVec) (m : String) : Except PredErr ℚ := do
  let mdl ← load_model env m
  let feats ← extract_features df m
  match mdl feats with
  | .ok v => .ok v
  | .error msg => .error (.predictFailure m msg)

/-- `AbMeltPredictor.predict_all` (lines 182-203): for each registered model
in order, any exception from `predict` is caught and surfaced as a `None`
entry for that model only. -/
def predict_all (env : ModelEnv) (df : FeatVec) : List (String × Option ℚ) :=
  modelNames.map (fun m => (m, (predict env df m).toOption))

/-! ### Persisted descriptor table: save and resume

`compute_descriptors` lines 113-138 (persist + return) and
`load_existing_descriptors` lines 849-919 (resume).  A file on disk is
modelled as `Option (Option FeatVec)`: `none` = the file is absent,
`some none` = the file exists but deserialising it raises,
`some (some t)` = the file deserialises to the table `t`. -/

/-- On-disk state of the two persisted descriptor forms
(`descriptors.csv`, `descriptors.pkl`). -/
structure DescDisk where
  mk :: (csv : Option (Option FeatVec)) (pkl : Option (Option FeatVec))

/-- `load_existing_descriptors`: try the CSV form first (a parse failure is
only a warning), fall back to the pickle form, and raise
`FileNotFoundError` when neither yields a table. -/
def load_existing_descriptors (d : DescDisk) : Except String FeatVec :=
  let fromCsv : Option FeatVec :=
    match d.csv with
    | some (some t) => some t
    | _ => none
  let loaded : Option FeatVec :=
    match fromCsv with
    | some t => some t
    | none =>
      match d.pkl with
      | some (some t) => some t
      | _ => none
  match loaded with
  | some t => .ok t
  | none => .error "Descriptor file not found when skipping descriptor computation."

/-- The persist block of `compute_descriptors` (lines 113-128): `to_csv` then
`pickle.dump` inside one `try`; a `to_csv` exception skips both writes, a
`pickle.dump` exception leaves only the CSV written; either way the exception
is caught and the run continues.  `csvOk` / `pklOk` say whether the
respective write raises. -/
def saveDescriptors (df : FeatVec) (csvOk pklOk : Bool) (d : DescDisk) : DescDisk :=
  if csvOk then
    if pklOk then ⟨some (some df), some (some df)⟩
    else ⟨some (some df), d.pkl⟩
  else d

/-- The tail of `compute_descriptors` (lines 113-138): persist (failures
caught), then return a `"success"` result carrying the in-memory table. -/
def compute_descriptors_tail (df : FeatVec) (csvOk pklOk : Bool) (d : DescDisk) :
    (String × FeatVec) × DescDisk :=
  (("success", df), saveDescriptors df csvOk pklOk d)

/-! ### Working-directory discipline

`compute_descriptors` (lines 61-145) and `run_md_simulation`
(`md_simulation.py` lines 46-123) both save `os.getcwd()`, `os.chdir` into
the `WorkDir`, run their body inside `try`, re-raise any exception, and
restore the saved directory in a `finally` block.  The process working
directory is the state threaded through; the stage body is an arbitrary state
transformer that may itself change the directory and may raise. -/

/-- `compute_descriptors`: `original_cwd = os.getcwd()`; `os.chdir(work_dir)`
inside the `try`; `finally: os.chdir(original_cwd)`.  The body receives the
directory after the chdir and returns its outcome plus the directory it ends
in (which the `finally` clause then overwrites). -/
def compute_descriptors_cwd {E A : Type} (workDir : String)
    (body : String → Except E A × String) (cwd0 : String) : Except E A × String :=
  let originalCwd := cwd0
  let step := body workDir
  (step.1, originalCwd)

/-- `run_md_simulation`: same discipline; the `os.chdir(work_dir)` happens
just before the `try`, the `finally` restoration is identical. -/
def run_md_simulation_cwd {E A : Type} (workDir : String)
    (body : String → Except E A × String) (cwd0 : String) : Except E A × String :=
  let originalCwd := cwd0
  let step := body workDir
  (step.1, originalCwd)

/-! ### Concrete instances used by witnesses and counterexamples -/

/-- A model environment in which exactly the `tagg` predictor artifact fails
to load and the other two models are constant predictors. -/
def wEnv : ModelEnv :=
  ⟨fun m => if m = "tagg" then .error "missing artifact" else .ok (fun _ => .ok 42)⟩

/-- A descriptor vector holding every feature required by the `tm` and
`tmon` models but missing `gyr_cdrs_Rg_std_400` (and the rest of the `tagg`
set). -/
def wDf : FeatVec :=
  [("gyr_cdrs_Rg_std_350", 1), ("bonds_contacts_std_350", 2), ("rmsf_cdrl1_std_350", 3),
   ("all-temp-sasa_core_mean_k=20_eq=20", 4), ("all-temp-sasa_core_std_k=20_eq=20", 5),
   ("r-lamda_b=2.5_eq=20", 6)]

/-- Parsed 2-D potential data: 103 rows, so with `eq_time = 1` ns the
equilibration slice starts at row 100 and the shell index 2 lands on
row 102. -/
def c4rows : List (List ℚ) :=
  List.replicate 100 [0, 0] ++ [[1, 10], [2, 20], [3, 30]]

/-- Parsed 2-D potential data with 6 rows, enough for the `cdrs` shell
index 5 at `eq_time = 0`. -/
def c4wrows : List (List ℚ) :=
  [[0, 1], [1, 2], [2, 3], [3, 4], [4, 5], [5, 6]]

/-! ### Helper lemmas on the substring test -/

theorem strContains_iff (s pat : String) :
    strContains s pat = true ↔ pat.data <:+: s.data := by
  simp [strContains]

theorem strContains_decomp {s pat : String} (pre post : List Char)
    (h : s.data = pre ++ pat.data ++ post) : strContains s pat = true := by
  rw [strContains_iff]
  exact ⟨pre, post, by rw [h]⟩

theorem strContains_false_of_char {s pat : String} (c : Char)
    (hc : c ∈ pat.data) (hs : c ∉ s.data) : strContains s pat = false := by
  cases hb : strContains s pat
  · rfl
  · exact ((hs (((strContains_iff s pat).1 hb).subset hc))).elim

theorem char_not_mem_digits {t : String} (hd : ∀ c ∈ t.data, c.isDigit)
    {c : Char} (hc : c.isDigit = false) : c ∉ t.data := fun h => by
  simp [hd c h] at hc

theorem strData_append (a b : String) : (a ++ b).data = a.data ++ b.data := rfl

theorem strLength_append (a b : String) :
    (a ++ b).length = a.length + b.length := String.length_append a b

/-! ### Claim theorems -/

/-- Claim C9: both stages that chdir into their WorkDir restore the previous
working directory unconditionally — whatever directory the stage body ends
in and whether it returns or raises, after `compute_descriptors` /
`run_md_simulation` the process working directory equals what it was
immediately before the call, and the body's outcome (value or re-raised
exception) is passed through. -/
theorem C9_cwd_restoration (E A : Type) (workDir cwd0 : String)
    (body : String → Except E A × String) :
    (compute_descriptors_cwd workDir body cwd0).2 = cwd0 ∧
    (run_md_simulation_cwd workDir body cwd0).2 = cwd0 ∧
    (compute_descriptors_cwd workDir body cwd0).1 = (body workDir).1 ∧
    (run_md_simulation_cwd workDir body cwd0).1 = (body workDir).1 :=
  ⟨rfl, rfl, rfl, rfl⟩

/-- Claim C10: when persisting the feature table raises, the exception is
caught and `compute_descriptors` still returns a `"success"` result carrying
the in-memory table; in the fresh-run case nothing is persisted, and a
subsequent resume via `load_existing_descriptors` on that disk state
raises. -/
theorem C10_persist_failure_still_success (df : FeatVec) (csvOk pklOk : Bool)
    (d : DescDisk) :
    (compute_descriptors_tail df csvOk pklOk d).1 = ("success", df) ∧
    (compute_descriptors_tail df false false ⟨none, none⟩).2 = ⟨none, none⟩ ∧
    (∃ msg,
      load_existing_descriptors (compute_descriptors_tail df false false ⟨none, none⟩).2 =
        .error msg) :=
  ⟨rfl, rfl, ⟨"Descriptor file not found when skipping descriptor computation.", rfl⟩⟩

/-- Claim C8: when resuming with descriptor computation skipped,
`load_existing_descriptors` tries the CSV form first (a parsing CSV decides
the result), and raises exactly when the persisted feature table can be
parsed back through neither form — a fully unparseable persisted table
aborts the run. -/
theorem C8_resume_parse_failure_fatal (d : DescDisk) :
    (∀ t, d.csv = some (some t) → load_existing_descriptors d = .ok t) ∧
    ((∀ t, d.csv ≠ some (some t)) → (∀ t, d.pkl ≠ some (some t)) →
      ∃ msg, load_existing_descriptors d = .error msg) := by
  obtain ⟨csv, pkl⟩ := d
  constructor
  · intro t ht
    simp only at ht
    subst ht
    rfl
  · intro hcsv hpkl
    refine ⟨"Descriptor file not found when skipping descriptor computation.", ?_⟩
    rcases csv with _ | (_ | t)
    · rcases pkl with _ | (_ | u)
      · rfl
      · rfl
      · exact absurd rfl (hpkl u)
    · rcases pkl with _ | (_ | u)
      · rfl
      · rfl
      · exact absurd rfl (hpkl u)
    · exact absurd rfl (hcsv t)

/-- Witness for C8: a malformed CSV with a malformed pickle raises; a
parsing CSV wins even when the pickle is malformed. -/
theorem C8_witness :
    (∃ msg, load_existing_descriptors ⟨some none, some none⟩ = .error msg) ∧
    load_existing_descriptors ⟨some (some [("a", 1)]), some none⟩ = .ok [("a", 1)] :=
  ⟨(C8_resume_parse_failure_fatal ⟨some none, some none⟩).2
      (fun _t h => Option.noConfusion (Option.some.inj h))
      (fun _t h => Option.noConfusion (Option.some.inj h)),
    (C8_resume_parse_failure_fatal ⟨some (some [("a", 1)]), some none⟩).1 [("a", 1)] rfl⟩

/-- Claim C6: for any block length whose order-parameter maps hold data at
fewer than 2 temperatures, the lambda step stores the explicit
`(None, None)` state and the aggregator emits no lambda or r feature for
that block length — its contribution to the feature vector is empty, not a
zero or default. -/
theorem C6_lambda_omission
    (getLam : S2Map → List ℤ → Option (ResDict × ResDict))
    (tempInts : List ℤ) (m : S2Map) (blockLabel : String) (eqTime : ℕ)
    (rest : List (String × Option (ResDict × ResDict)))
    (h : (availableTemps tempInts m).length < 2) :
    computeLambdaBlock getLam tempInts m = none ∧
    lambdaBlockFeatures eqTime blockLabel (computeLambdaBlock getLam tempInts m) = [] ∧
    lambdaFeatures eqTime
        ((blockLabel, computeLambdaBlock getLam tempInts m) :: rest) =
      lambdaFeatures eqTime rest := by
  have h1 : computeLambdaBlock getLam tempInts m = none := by
    unfold computeLambdaBlock
    simp [h]
  refine ⟨h1, ?_, ?_⟩
  · rw [h1]
    rfl
  · simp [lambdaFeatures, h1, lambdaBlockFeatures]

/-- Witness for C6: a single-temperature S² map (the other temperature holds
no data) yields no lambda features for block length 25. -/
theorem C6_witness :
    ((availableTemps [300, 350] ([(300, [(1, 1)])] : S2Map)).length < 2) ∧
    (computeLambdaBlock (fun _ _ => some ([(1, 1)], [(1, 1)])) [300, 350]
        ([(300, [(1, 1)])] : S2Map) = none ∧
      lambdaBlockFeatures 20 "25"
          (computeLambdaBlock (fun _ _ => some ([(1, 1)], [(1, 1)])) [300, 350]
            ([(300, [(1, 1)])] : S2Map)) = [] ∧
      lambdaFeatures 20
          (("25", computeLambdaBlock (fun _ _ => some ([(1, 1)], [(1, 1)])) [300, 350]
              ([(300, [(1, 1)])] : S2Map)) :: []) =
        lambdaFeatures 20 []) :=
  ⟨by decide,
    C6_lambda_omission (fun _ _ => some ([(1, 1)], [(1, 1)])) [300, 350]
      ([(300, [(1, 1)])] : S2Map) "25" 20 [] (by decide)⟩

/-- Claim C5 (evaluation at the failing input): a dipole file parsed to 4
data columns (the 5-column raw `gmx dipoles` output) is captured by the
`shape[1] >= 4` branch, which only handles gyration names, so no dipole
feature is emitted — the dedicated `shape[1] == 4` dipole branch is
unreachable.  The 3-data-column dipole file, the 2-data-column bonds file
and the 4-data-column gyration file behave as the claim states. -/
theorem C5_dipole_dead_branch :
    parseXvg [[0, 1, 2, 3, 40], [1, 1, 2, 3, 50]] =
      some (.many 4 [[1, 2, 3, 40], [1, 2, 3, 50]]) ∧
    aggFile 0 ["300"] "dipole_300" (parseXvg [[0, 1, 2, 3, 40], [1, 1, 2, 3, 50]]) = [] ∧
    (aggFile 0 ["300"] "dipole_300" (parseXvg [[0, 1, 2, 40], [1, 1, 2, 50]])).map Prod.fst =
      ["dipole_mu_300", "dipole_std_300"] ∧
    (aggFile 0 ["300"] "bonds_300" (parseXvg [[0, 4, 10], [1, 6, 20]])).map Prod.fst =
      ["bonds_hbonds_mu_300", "bonds_hbonds_std_300",
       "bonds_contacts_mu_300", "bonds_contacts_std_300"] ∧
    (aggFile 0 ["350"] "gyr_cdrs_350" (parseXvg [[0, 1, 2, 3, 4], [1, 3, 4, 5, 6]])).map Prod.fst =
      ["gyr_cdrs_Rg_mu_350", "gyr_cdrs_Rg_std_350", "gyr_cdrs_Rx_mu_350", "gyr_cdrs_Rx_std_350",
       "gyr_cdrs_Ry_mu_350", "gyr_cdrs_Ry_std_350", "gyr_cdrs_Rz_mu_350", "gyr_cdrs_Rz_std_350"] :=
  ⟨by decide, by decide, by decide, by decide, by decide⟩

/-- The `predict_all` entry of each registered model is exactly the caught
outcome of that model's own `predict` call. -/
theorem lookup_predict_all (env : ModelEnv) (df : FeatVec) (m : String)
    (hm : m ∈ modelNames) :
    (predict_all env df).lookup m = some ((predict env df m).toOption) := by
  simp only [modelNames, List.mem_cons, List.not_mem_nil, or_false] at hm
  rcases hm with rfl | rfl | rfl <;> rfl

/-- Claim C1: `predict_all` returns an entry for each of the three
registered models, per-model exceptions are caught and surfaced as a `None`
entry; when exactly one model is misconfigured (its artifact fails to load)
the other two still yield their scalar predictions and the broken one an
explicit unavailable marker, and `predict_all` does not raise (it is a total
function into a plain map by construction). -/
theorem C1_per_model_isolation (env : ModelEnv) (df : FeatVec) (b : String)
    (hb : b ∈ modelNames)
    (hbroken : ∃ msg, env.loadModel b = .error msg)
    (hok : ∀ m ∈ modelNames, m ≠ b → ∃ v, predict env df m = .ok v) :
    ((predict_all env df).map Prod.fst = modelNames) ∧
    ((predict_all env df).lookup b = some none) ∧
    (∀ m ∈ modelNames, m ≠ b →
      ∃ v, predict env df m = .ok v ∧
        (predict_all env df).lookup m = some (some v)) := by
  obtain ⟨msg, hmsg⟩ := hbroken
  have hcontains : modelNames.contains b = true := List.elem_iff.mpr hb
  have hload : load_model env b = .error (.loadFailure b msg) := by
    unfold load_model
    rw [hcontains, hmsg]
    rfl
  have hfail : predict env df b = .error (.loadFailure b msg) := by
    unfold predict
    rw [hload]
    rfl
  refine ⟨rfl, ?_, ?_⟩
  · rw [lookup_predict_all env df b hb, hfail]
    rfl
  · intro m hm hne
    obtain ⟨v, hv⟩ := hok m hm hne
    refine ⟨v, hv, ?_⟩
    rw [lookup_predict_all env df m hm, hv]
    rfl

/-- Witness for C1: with the `tagg` artifact failing to load and constant
`tm`/`tmon` predictors, `predict_all` maps `tagg` to the unavailable marker
and the other two to their predictions. -/
theorem C1_witness :
    ((predict_all wEnv wDf).map Prod.fst = modelNames) ∧
    ((predict_all wEnv wDf).lookup "tagg" = some none) ∧
    (∀ m ∈ modelNames, m ≠ "tagg" →
      ∃ v, predict wEnv wDf m = .ok v ∧
        (predict_all wEnv wDf).lookup m = some (some v)) :=
  C1_per_model_isolation wEnv wDf "tagg" (by decide) ⟨"missing artifact", rfl⟩
    (by
      intro m hm hne
      simp only [modelNames, List.mem_cons, List.not_mem_nil, or_false] at hm
      rcases hm with rfl | rfl | rfl
      · exact absurd rfl hne
      · exact ⟨42, rfl⟩
      · exact ⟨42, rfl⟩)

/-- Claim C2: the `tagg` required feature set is exactly
`{rmsf_cdrs_mu_400, gyr_cdrs_Rg_std_400, all-temp_lamda_b=25_eq=20}`; a
vector missing `gyr_cdrs_Rg_std_400` makes `extract_features` raise a
structured error naming missing features of the `tagg` model only, which
`predict_all` converts to an unavailable `tagg` entry, while any model whose
required features are all present keeps its own prediction unchanged. -/
theorem C2_tagg_missing_feature (env : ModelEnv) (df : FeatVec)
    (hmiss : "gyr_cdrs_Rg_std_400" ∉ df.map Prod.fst) :
    model_features "tagg" =
      ["rmsf_cdrs_mu_400", "gyr_cdrs_Rg_std_400", "all-temp_lamda_b=25_eq=20"] ∧
    (∃ missing, extract_features df "tagg" = .error (.missingFeatures "tagg" missing) ∧
      "gyr_cdrs_Rg_std_400" ∈ missing ∧
      ∀ f ∈ missing, f ∈ model_features "tagg" ∧ f ∉ df.map Prod.fst) ∧
    (predict_all env df).lookup "tagg" = some none ∧
    (∀ m ∈ modelNames, (∀ f ∈ model_features m, f ∈ df.map Prod.fst) →
      ∀ v, predict env df m = .ok v →
        (predict_all env df).lookup m = some (some v)) := by
  have hcont : (df.map Prod.fst).contains "gyr_cdrs_Rg_std_400" = false := by
    cases hc : (df.map Prod.fst).contains "gyr_cdrs_Rg_std_400"
    · rfl
    · exact absurd (List.elem_iff.mp hc) hmiss
  have hmem :
      "gyr_cdrs_Rg_std_400" ∈
        (model_features "tagg").filter (fun f => !((df.map Prod.fst).contains f)) := by
    refine List.mem_filter.mpr ⟨by decide, ?_⟩
    rw [hcont]
    rfl
  have hne :
      ((model_features "tagg").filter
        (fun f => !((df.map Prod.fst).contains f))).isEmpty = false := by
    cases hM : ((model_features "tagg").filter
        (fun f => !((df.map Prod.fst).contains f))).isEmpty
    · rfl
    · rw [List.isEmpty_iff] at hM
      rw [hM] at hmem
      exact absurd hmem (List.not_mem_nil _)
  have hext : extract_features df "tagg" =
      .error (.missingFeatures "tagg"
        ((model_features "tagg").filter (fun f => !((df.map Prod.fst).contains f)))) := by
    unfold extract_features
    simp only [hne]
    rfl
  have hpnone : (predict env df "tagg").toOption = none := by
    unfold predict
    cases henv : env.loadModel "tagg" with
    | error msg =>
      have hload : load_model env "tagg" = .error (.loadFailure "tagg" msg) := by
        unfold load_model
        rw [henv]
        rfl
      rw [hload]
      rfl
    | ok f =>
      have hload : load_model env "tagg" = .ok f := by
        unfold load_model
        rw [henv]
        rfl
      rw [hload, hext]
      rfl
  refine ⟨rfl, ?_, ?_, ?_⟩
  · refine ⟨(model_features "tagg").filter (fun f => !((df.map Prod.fst).contains f)),
      hext, hmem, ?_⟩
    intro f hf
    have hf2 := List.mem_filter.mp hf
    refine ⟨hf2.1, fun hmemf => ?_⟩
    have : (df.map Prod.fst).contains f = true := List.elem_iff.mpr hmemf
    rw [this] at hf2
    exact absurd hf2.2 (by decide)
  · rw [lookup_predict_all env df "tagg" (by decide), hpnone]
  · intro m hm _hfeat v hv
    rw [lookup_predict_all env df m hm, hv]
    rfl

/-- Witness for C2: `wDf` misses `gyr_cdrs_Rg_std_400`; under `wEnv` the
`tagg` entry is unavailable while `tm` and `tmon` keep their predictions. -/
theorem C2_witness :
    model_features "tagg" =
      ["rmsf_cdrs_mu_400", "gyr_cdrs_Rg_std_400", "all-temp_lamda_b=25_eq=20"] ∧
    (∃ missing, extract_features wDf "tagg" = .error (.missingFeatures "tagg" missing) ∧
      "gyr_cdrs_Rg_std_400" ∈ missing ∧
      ∀ f ∈ missing, f ∈ model_features "tagg" ∧ f ∉ wDf.map Prod.fst) ∧
    (predict_all wEnv wDf).lookup "tagg" = some none ∧
    (∀ m ∈ modelNames, (∀ f ∈ model_features m, f ∈ wDf.map Prod.fst) →
      ∀ v, predict wEnv wDf m = .ok v →
        (predict_all wEnv wDf).lookup m = some (some v)) :=
  C2_tagg_missing_feature wEnv wDf (by decide)

/-- Every feature value the 1-D branch emits is the mean or the (squared)
std of the series it was handed. -/
theorem agg1_snd (name temp : String) (ys : List ℚ) :
    ∀ p ∈ agg1 name temp ys, p.2 = npMean ys ∨ p.2 = npVar ys := by
  intro p hp
  unfold agg1 at hp
  repeat' split at hp
  all_goals simp only [List.mem_cons, List.not_mem_nil, or_false] at hp
  all_goals rcases hp with rfl | rfl
  all_goals first
    | exact Or.inl rfl
    | exact Or.inr rfl

/-- Claim C3: for a time-series raw metric file (non-RMSF) whose parsed data
has `N` rows, with equilibration row index `k = eqStartIdx eq_time`: when
`N ≤ k` the metric contributes no feature at all (skip, not an error and not
a zero), and otherwise every aggregated mean/std feature for the metric
equals the mean / (squared) std of rows `[k:N]`. -/
theorem C3_equilibration_slicing (eqTime : ℕ) (temps : List String)
    (name temp : String) (d : XvgData) (xs : List ℚ)
    (hfind : temps.find? (fun t => strContains name t) = some temp)
    (hnr : strContains name "rmsf" = false) :
    (dataLen d ≤ eqStartIdx eqTime →
      aggFile eqTime temps name (some d) = []) ∧
    (∀ p ∈ aggFile eqTime temps name (some (.one xs)),
      p.2 = npMean (xs.drop (eqStartIdx eqTime)) ∨
      p.2 = npVar (xs.drop (eqStartIdx eqTime))) := by
  constructor
  · intro hle
    unfold aggFile
    rw [hfind]
    by_cases h0 : dataLen d = 0
    · simp [h0]
    · simp [h0, hnr, hle]
  · intro p hp
    unfold aggFile at hp
    rw [hfind] at hp
    by_cases h0 : xs.length = 0
    · simp [dataLen, h0] at hp
    · simp only [dataLen, h0, hnr, Bool.false_eq_true, if_false, if_neg] at hp
      by_cases hle : xs.length ≤ eqStartIdx eqTime
      · simp [hle] at hp
      · simp only [hle, if_false, dataDrop] at hp
        by_cases h2 : (xs.drop (eqStartIdx eqTime)).length = 0
        · simp [dataLen, h2] at hp
        · simp only [dataLen, h2, if_false] at hp
          exact agg1_snd name temp (xs.drop (eqStartIdx eqTime)) p hp

/-- Witness for C3: an `rmsd` series of length 3 at `eq_time = 0`. -/
theorem C3_witness :
    (["300"].find? (fun t => strContains "rmsd_300" t) = some "300") ∧
    strContains "rmsd_300" "rmsf" = false ∧
    ((dataLen (.one [1, 2, 3]) ≤ eqStartIdx 0 →
        aggFile 0 ["300"] "rmsd_300" (some (.one [1, 2, 3])) = []) ∧
      (∀ p ∈ aggFile 0 ["300"] "rmsd_300" (some (.one [1, 2, 3])),
        p.2 = npMean (([1, 2, 3] : List ℚ).drop (eqStartIdx 0)) ∨
        p.2 = npVar (([1, 2, 3] : List ℚ).drop (eqStartIdx 0)))) :=
  ⟨by decide, by decide,
    C3_equilibration_slicing 0 ["300"] "rmsd_300" "300" (.one [1, 2, 3]) [1, 2, 3]
      (by decide) (by decide)⟩

/-- Claim C4 (amended): for a 2-D-parsed electrostatic-potential file, the
aggregator emits `potential_<region>_mu_<temp>` equal to the potential value
(column 1) at the region's radial shell index *into the equilibration-sliced
data* (row `eqStartIdx eq_time + shell index` of the parsed file) and
`potential_<region>_std_<temp>` equal to 0 — never a time average — and
emits nothing at all when the series does not survive equilibration slicing
or the sliced data does not reach the shell index. -/
theorem C4_amended (eqTime : ℕ) (temps : List String) (name temp : String)
    (c : ℕ) (rows : List (List ℚ))
    (hfind : temps.find? (fun t => strContains name t) = some temp)
    (hpot : strContains name "potential" = true)
    (hnr : strContains name "rmsf" = false) :
    aggFile eqTime temps name (some (.many c rows)) =
      if rows.length ≤ eqStartIdx eqTime ∨
          (rows.drop (eqStartIdx eqTime)).length ≤
            potentialRadiusIdx (strReplace (strReplace name "potential_" "") ("_" ++ temp) "") then
        []
      else
        [("potential_" ++ strReplace (strReplace name "potential_" "") ("_" ++ temp) "" ++
            "_mu_" ++ temp,
          ((rows.drop (eqStartIdx eqTime)).getD
            (potentialRadiusIdx (strReplace (strReplace name "potential_" "") ("_" ++ temp) ""))
            []).getD 1 0),
         ("potential_" ++ strReplace (strReplace name "potential_" "") ("_" ++ temp) "" ++
            "_std_" ++ temp, 0)] := by
  unfold aggFile
  rw [hfind]
  by_cases h0 : rows.length = 0
  · have hle : rows.length ≤ eqStartIdx eqTime := by omega
    simp [dataLen, h0, hle]
  · simp only [dataLen, h0, if_neg, hnr, Bool.false_eq_true, if_false]
    by_cases hle : rows.length ≤ eqStartIdx eqTime
    · simp [hle]
    · simp only [hle, if_false, dataDrop]
      have h2 : (rows.drop (eqStartIdx eqTime)).length ≠ 0 := by
        rw [List.length_drop]
        omega
      simp only [dataLen, h2, if_false]
      unfold agg2
      rw [hpot]
      by_cases h3 :
          potentialRadiusIdx (strReplace (strReplace name "potential_" "") ("_" ++ temp) "") <
            (rows.drop (eqStartIdx eqTime)).length
      · have h4 : ¬ (rows.length ≤ eqStartIdx eqTime ∨
            (rows.drop (eqStartIdx eqTime)).length ≤
              potentialRadiusIdx (strReplace (strReplace name "potential_" "") ("_" ++ temp) "")) := by
          push_neg
          exact ⟨by omega, h3⟩
        simp only [h3, if_true, h4, if_false]
        rw [List.length_drop] at h3
        simp only [false_or, List.length_drop]
        rw [if_neg (by omega)]
      · have h4 : rows.length ≤ eqStartIdx eqTime ∨
            (rows.drop (eqStartIdx eqTime)).length ≤
              potentialRadiusIdx (strReplace (strReplace name "potential_" "") ("_" ++ temp) "") := by
          right
          omega
        simp only [h3, if_false, h4, if_true]
        rw [List.length_drop] at h3
        simp only [false_or, List.length_drop]
        rw [if_pos (by omega)]

/-- Counterexample for C4 as stated: with `eq_time = 1` ns (slice start at
row 100) the emitted `potential_cdrl1_mu_300` value is the one at row 102 of
the parsed file, not the value at radial shell index 2 of the parsed data
(row 2), which differs. -/
theorem C4_counterexample :
    (aggFile 1 ["300"] "potential_cdrl1_300" (some (.many 2 c4rows))).lookup
        "potential_cdrl1_mu_300" = some 30 ∧
    (c4rows.getD 2 []).getD 1 0 = 0 ∧
    (30 : ℚ) ≠ 0 :=
  ⟨by decide, by decide, by decide⟩

/-- Witness for C4 (amended): a `cdrs` potential file with 6 rows at
`eq_time = 0` emits the value at shell index 5 and a zero std. -/
theorem C4_witness :
    (["300"].find? (fun t => strContains "potential_cdrs_300" t) = some "300") ∧
    strContains "potential_cdrs_300" "potential" = true ∧
    strContains "potential_cdrs_300" "rmsf" = false ∧
    aggFile 0 ["300"] "potential_cdrs_300" (some (.many 2 c4wrows)) =
      (if c4wrows.length ≤ eqStartIdx 0 ∨
          (c4wrows.drop (eqStartIdx 0)).length ≤
            potentialRadiusIdx
              (strReplace (strReplace "potential_cdrs_300" "potential_" "") ("_" ++ "300") "") then
        []
      else
        [("potential_" ++
            strReplace (strReplace "potential_cdrs_300" "potential_" "") ("_" ++ "300") "" ++
            "_mu_" ++ "300",
          ((c4wrows.drop (eqStartIdx 0)).getD
            (potentialRadiusIdx
              (strReplace (strReplace "potential_cdrs_300" "potential_" "") ("_" ++ "300") ""))
            []).getD 1 0),
         ("potential_" ++
            strReplace (strReplace "potential_cdrs_300" "potential_" "") ("_" ++ "300") "" ++
            "_std_" ++ "300", 0)]) :=
  ⟨by decide, by decide, by decide,
    C4_amended 0 ["300"] "potential_cdrs_300" "300" 2 c4wrows (by decide) (by decide) (by decide)⟩

/-- A character that is neither in the constant part of a name nor a digit
does not occur in `konst ++ temp` when `temp` is all digits. -/
theorem char_not_mem_concat (a temp : String) (hd : ∀ ch ∈ temp.data, ch.isDigit)
    {c : Char} (hca : c ∉ a.data) (hc : c.isDigit = false) :
    c ∉ (a ++ temp).data := by
  rw [strData_append]
  intro h
  rcases List.mem_append.mp h with h | h
  · exact hca h
  · exact char_not_mem_digits hd hc h

/-- The temperature string is a substring of any name built as
`konst ++ temp`. -/
theorem strContains_temp_suffix (a temp : String) :
    strContains (a ++ temp) temp = true := by
  refine strContains_decomp a.data [] ?_
  rw [strData_append]
  simp

/-- Substring facts for the light/heavy-interface bonds file name. -/
theorem lh_facts (temp : String) (hd : ∀ ch ∈ temp.data, ch.isDigit) :
    strContains ("bonds_lh_" ++ temp) "bonds" = true ∧
    strContains ("bonds_lh_" ++ temp) "lh" = true ∧
    strContains ("bonds_lh_" ++ temp) "rmsf" = false := by
  refine ⟨?_, ?_, ?_⟩
  · refine strContains_decomp [] ("_lh_".data ++ temp.data) ?_
    rw [strData_append,
      (by decide : "bonds_lh_".data = ([] : List Char) ++ "bonds".data ++ "_lh_".data)]
    simp
  · refine strContains_decomp "bonds_".data ("_".data ++ temp.data) ?_
    rw [strData_append,
      (by decide : "bonds_lh_".data = "bonds_".data ++ "lh".data ++ "_".data)]
    simp
  · exact strContains_false_of_char 'f' (by decide)
      (char_not_mem_concat "bonds_lh_" temp hd (by decide) (by decide))

/-- Substring facts for the plain bonds file name. -/
theorem plain_facts (temp : String) (hd : ∀ ch ∈ temp.data, ch.isDigit) :
    strContains ("bonds_" ++ temp) "bonds" = true ∧
    strContains ("bonds_" ++ temp) "lh" = false ∧
    strContains ("bonds_" ++ temp) "rmsf" = false ∧
    strContains ("bonds_" ++ temp) "potential" = false ∧
    strContains ("bonds_" ++ temp) "gyr" = false ∧
    strContains ("bonds_" ++ temp) "dipole" = false := by
  refine ⟨?_, ?_, ?_, ?_, ?_, ?_⟩
  · refine strContains_decomp [] ("_".data ++ temp.data) ?_
    rw [strData_append,
      (by decide : "bonds_".data = ([] : List Char) ++ "bonds".data ++ "_".data)]
    simp
  · exact strContains_false_of_char 'l' (by decide)
      (char_not_mem_concat "bonds_" temp hd (by decide) (by decide))
  · exact strContains_false_of_char 'f' (by decide)
      (char_not_mem_concat "bonds_" temp hd (by decide) (by decide))
  · exact strContains_false_of_char 'p' (by decide)
      (char_not_mem_concat "bonds_" temp hd (by decide) (by decide))
  · exact strContains_false_of_char 'g' (by decide)
      (char_not_mem_concat "bonds_" temp hd (by decide) (by decide))
  · exact strContains_false_of_char 'p' (by decide)
      (char_not_mem_concat "bonds_" temp hd (by decide) (by decide))

/-- Every feature name a single-column light/heavy bonds file can assign. -/
theorem names_bondslh_one (temp : String) (hd : ∀ ch ∈ temp.data, ch.isDigit)
    (eqTime : ℕ) (xs : List ℚ) :
    ∀ p ∈ aggFile eqTime [temp] ("bonds_lh_" ++ temp) (some (.one xs)),
      p.1 = "bonds_lh_mu_" ++ temp ∨ p.1 = "bonds_lh_std_" ++ temp := by
  obtain ⟨hA, hB, hC⟩ := lh_facts temp hd
  have hfind : [temp].find? (fun t => strContains ("bonds_lh_" ++ temp) t) = some temp := by
    simp [List.find?, strContains_temp_suffix]
  intro p hp
  unfold aggFile at hp
  rw [hfind] at hp
  by_cases h0 : xs.length = 0
  · simp [dataLen, h0] at hp
  · simp only [dataLen, h0, if_false, hC, Bool.false_eq_true] at hp
    by_cases hle : xs.length ≤ eqStartIdx eqTime
    · simp [hle] at hp
    · simp only [hle, if_false, dataDrop] at hp
      by_cases h2 : (xs.drop (eqStartIdx eqTime)).length = 0
      · simp [dataLen, h2] at hp
      · simp only [dataLen, h2, if_false] at hp
        unfold agg1 at hp
        rw [hA, hB] at hp
        simp only [if_true, List.mem_cons, List.not_mem_nil, or_false] at hp
        rcases hp with rfl | rfl
        · exact Or.inl rfl
        · exact Or.inr rfl

/-- Every feature name the plain bonds file can assign, for data of any
parsed shape. -/
theorem names_bonds_plain (temp : String) (hd : ∀ ch ∈ temp.data, ch.isDigit)
    (eqTime : ℕ) (d : Option XvgData) :
    ∀ p ∈ aggFile eqTime [temp] ("bonds_" ++ temp) d,
      p.1 ∈ ["bonds_hbonds_mu_" ++ temp, "bonds_hbonds_std_" ++ temp,
             "bonds_contacts_mu_" ++ temp, "bonds_contacts_std_" ++ temp] := by
  obtain ⟨hE, hF, hG, hH, hI, hJ⟩ := plain_facts temp hd
  have hfind : [temp].find? (fun t => strContains ("bonds_" ++ temp) t) = some temp := by
    simp [List.find?, strContains_temp_suffix]
  intro p hp
  unfold aggFile at hp
  rw [hfind] at hp
  cases d with
  | none => simp at hp
  | some dd =>
    by_cases h0 : dataLen dd = 0
    · simp [h0] at hp
    · simp only [h0, if_false, hG, Bool.false_eq_true] at hp
      by_cases hle : dataLen dd ≤ eqStartIdx eqTime
      · simp [hle] at hp
      · simp only [hle, if_false] at hp
        by_cases h2 : dataLen (dataDrop (eqStartIdx eqTime) dd) = 0
        · simp [h2] at hp
        · simp only [h2, if_false] at hp
          cases dd with
          | one xs =>
            simp only [dataDrop] at hp
            unfold agg1 at hp
            rw [hE, hF] at hp
            simp only [if_true, Bool.false_eq_true, if_false,
              List.mem_cons, List.not_mem_nil, or_false] at hp
            rcases hp with rfl | rfl <;> simp
          | many c rows =>
            simp only [dataDrop] at hp
            unfold agg2 at hp
            rw [hH] at hp
            simp only [Bool.false_eq_true, if_false] at hp
            by_cases hc4 : 4 ≤ c
            · simp [hc4, hI] at hp
            · by_cases hc2 : c = 2
              · subst hc2
                simp [hE, show ¬(4 : ℕ) ≤ 2 by omega] at hp
                rcases hp with rfl | rfl | rfl | rfl <;> simp
              · by_cases hc3 : c = 3
                · simp [hc4, hc2, hc3, hJ] at hp
                · simp [hc4, hc2, hc3, (by omega : c ≠ 4), hJ] at hp

/-- Claim C7 (amended): when the light/heavy-interface `bonds_lh` file
parses as a single-column series, every feature name it assigns is distinct
from every feature name the plain `bonds` file for the same temperature can
assign (whatever shape the latter parses to).  (With two-data-column
`bonds_lh` data both files assign the same `bonds_hbonds`/`bonds_contacts`
names; see the counterexample.) -/
theorem C7_amended (temp : String) (hd : ∀ ch ∈ temp.data, ch.isDigit)
    (eqTime : ℕ) (xs : List ℚ) (d : Option XvgData) :
    ∀ n1 ∈ (aggFile eqTime [temp] ("bonds_lh_" ++ temp) (some (.one xs))).map Prod.fst,
    ∀ n2 ∈ (aggFile eqTime [temp] ("bonds_" ++ temp) d).map Prod.fst, n1 ≠ n2 := by
  intro n1 h1 n2 h2
  simp only [List.mem_map] at h1 h2
  obtain ⟨p1, hp1, rfl⟩ := h1
  obtain ⟨p2, hp2, rfl⟩ := h2
  have H1 := names_bondslh_one temp hd eqTime xs p1 hp1
  have H2 := names_bonds_plain temp hd eqTime d p2 hp2
  simp only [List.mem_cons, List.not_mem_nil, or_false] at H2
  intro heq
  have hlen := congrArg String.length heq
  have e1 : ("bonds_lh_mu_" : String).length = 12 := rfl
  have e2 : ("bonds_lh_std_" : String).length = 13 := rfl
  have e3 : ("bonds_hbonds_mu_" : String).length = 16 := rfl
  have e4 : ("bonds_hbonds_std_" : String).length = 17 := rfl
  have e5 : ("bonds_contacts_mu_" : String).length = 18 := rfl
  have e6 : ("bonds_contacts_std_" : String).length = 19 := rfl
  rcases H1 with h1 | h1 <;> rw [h1] at hlen <;>
    rcases H2 with h2 | h2 | h2 | h2 <;> rw [h2] at hlen <;>
    rw [strLength_append, strLength_append] at hlen <;>
    simp only [e1, e2, e3, e4, e5, e6] at hlen <;> omega

/-- Counterexample for C7 as stated: a plain bonds file and a light/heavy
`bonds_lh` file for the same temperature, both parsing to two data columns,
assign a value to the same feature name `bonds_hbonds_mu_300` (the 2-D
branch dispatches on the substring `bonds` alone). -/
theorem C7_counterexample :
    "bonds_hbonds_mu_300" ∈ assignedNames 0 ["300"] ("bonds_300", [[0, 4, 10], [1, 6, 20]]) ∧
    "bonds_hbonds_mu_300" ∈ assignedNames 0 ["300"] ("bonds_lh_300", [[0, 2, 9], [1, 3, 11]]) ∧
    ("bonds_300" : String) ≠ "bonds_lh_300" :=
  ⟨by decide, by decide, by decide⟩

/-- Witness for C7 (amended): at temperature `300`, the name a 1-D
`bonds_lh` file assigns differs from the one the 2-data-column plain bonds
file assigns. -/
theorem C7_witness :
    ("bonds_lh_mu_" ++ "300" : String) ≠ ("bonds_hbonds_mu_" ++ "300") :=
  C7_amended "300" (by decide) 0 [1, 2] (some (.many 2 [[4, 10], [6, 20]]))
    ("bonds_lh_mu_" ++ "300") (by decide) ("bonds_hbonds_mu_" ++ "300") (by decide)

end AbMelt
